import Mathlib

/-!
Verification of the refresh-coalescing axios response-error interceptor
(`src/shared/libs/api/axios/response-error-interceptor.ts`).

The interceptor is an async handler over two pieces of module-level shared
state (`isRefreshing : boolean`, `refreshSubscribers : Array<(ok) => void>`).
Under the single-threaded cooperative scheduler, each invocation runs
atomically up to its first suspension point, so the whole component is
faithfully captured by a step machine:

  * an `Event.arrive rid e` step runs `responseErrorInterceptor(e)` for the
    caller identified by `rid`, up to (and excluding) the settlement of the
    refresh POST it may start;
  * an `Event.settle ro` step processes the outcome `ro` of the refresh POST
    issued at line 45.  Because the POST goes through the same `SquareAxios`
    instance, a rejected refresh call first re-enters
    `responseErrorInterceptor` (`index.ts` line 11); only what that
    invocation returns determines whether the line-45 `await` resolves
    (lines 47-50), rejects (the `catch`, lines 51-59), or never settles (a
    first-attempt 401 refresh failure is enqueued as a waiter and the
    episode deadlocks).

Observable effects (refresh POSTs issued, replay requests issued, redirects
to `/signin`, promise settlements) are recorded in the state, in the order
the code performs them.
-/

/-- The request descriptor (`AxiosRequestConfig & { _retry?: boolean }`).
`url` stands for the opaque payload of the descriptor (method, path,
headers, body); `retry` is the one-shot `_retry` marker.  A missing
`_retry` field is `false`. -/
structure RequestConfig where
  url : Nat
  retry : Bool
deriving Repr, DecidableEq

/-- The `AxiosError` as seen at the interceptor boundary: `config` is
`error.config` (possibly absent), `status` is `error.response?.status`
(`none` when there is no response), `cancelled` is `axios.isCancel(error)`. -/
structure AxiosError where
  config : Option RequestConfig
  status : Option Nat
  cancelled : Bool
deriving Repr, DecidableEq

/-- How one caller's promise settles. -/
inductive Settle where
  /-- `return Promise.resolve(null)` — the cancellation path (line 24). -/
  | nullResult : Settle
  /-- `resolve(SquareAxios(originalRequest))` / `return SquareAxios(originalRequest)`:
  the promise settles with the outcome of replaying descriptor `cfg`. -/
  | replay (cfg : RequestConfig) : Settle
  /-- `reject(error)` / `return Promise.reject(error)` with the original error. -/
  | rejectOriginal (e : AxiosError) : Settle
  /-- `return Promise.reject(refreshError)` (line 59) — rejected with the
  error `e` the refresh call failed with. -/
  | rejectRefresh (e : AxiosError) : Settle
deriving Repr, DecidableEq

/-- One entry of `refreshSubscribers`: the closure pushed at lines 31-39
captures the caller's `resolve`/`reject` (represented by `rid`), the mutated
`originalRequest` (with `_retry` already set), and the original `error`. -/
structure Waiter where
  rid : Nat
  cfg : RequestConfig
  err : AxiosError
deriving Repr, DecidableEq

/-- The interceptor's shared state plus its log of observable effects. -/
structure InterceptorState where
  /-- `let isRefreshing = false` (line 5). -/
  isRefreshing : Bool
  /-- `let refreshSubscribers = []` (line 6), as the data each queued
  callback closes over, in push order. -/
  refreshSubscribers : List Waiter
  /-- The initiating invocation currently suspended on the refresh POST. -/
  inFlight : Option Waiter
  /-- Whether `window` is defined (browser vs. server context, line 55). -/
  hasWindow : Bool
  /-- Count of `SquareAxios.post(API_PATHS.AUTH.REFRESH)` calls issued. -/
  refreshCalls : Nat
  /-- `rid`s whose descriptor was re-issued through `SquareAxios(...)`,
  in issuance order. -/
  replays : List Nat
  /-- Count of `window.location.href = "/signin"` assignments. -/
  redirects : Nat
  /-- Promise settlements `(rid, how)`, in the order they occur. -/
  settled : List (Nat × Settle)
deriving Repr, DecidableEq

/-- Module state at process start: flag down, no subscribers, no effects. -/
def initState (hasWindow : Bool) : InterceptorState :=
  { isRefreshing := false
    refreshSubscribers := []
    inFlight := none
    hasWindow := hasWindow
    refreshCalls := 0
    replays := []
    redirects := 0
    settled := [] }

/-- What the callback pushed by `subscribeRefresh` (lines 31-38) does when
`onRefreshed` invokes it with `ok`: on success it resolves the caller with
the replay of `originalRequest`; on failure it rejects with the original
error. -/
def runWaiter (ok : Bool) (w : Waiter) : Nat × Settle :=
  if ok then (w.rid, Settle.replay w.cfg) else (w.rid, Settle.rejectOriginal w.err)

/-- `originalRequest` after `originalRequest._retry = true` (line 28). -/
def markRetried (cfg : RequestConfig) : RequestConfig :=
  { cfg with retry := true }

/-- One synchronous run of `responseErrorInterceptor(e)` for caller `rid`
(lines 19-63), up to its first suspension point. -/
def stepArrive (s : InterceptorState) (rid : Nat) (e : AxiosError) : InterceptorState :=
  -- line 23: if (axios.isCancel(error)) return Promise.resolve(null)
  if e.cancelled then
    { s with settled := s.settled ++ [(rid, Settle.nullResult)] }
  else
    match e.config with
    | none =>
      -- line 27 guard fails (no originalRequest): fall through to line 63
      { s with settled := s.settled ++ [(rid, Settle.rejectOriginal e)] }
    | some cfg =>
      if e.status = some 401 ∧ cfg.retry = false then
        -- line 28: originalRequest._retry = true
        let w : Waiter := ⟨rid, markRetried cfg, e⟩
        if s.isRefreshing then
          -- lines 30-39: subscribeRefresh(...) — enqueue and stay pending
          { s with refreshSubscribers := s.refreshSubscribers ++ [w] }
        else
          -- lines 42-45: isRefreshing = true; issue the refresh POST; suspend
          { s with isRefreshing := true
                   inFlight := some w
                   refreshCalls := s.refreshCalls + 1 }
      else
        -- line 63: return Promise.reject(error)
        { s with settled := s.settled ++ [(rid, Settle.rejectOriginal e)] }

/-- How the refresh POST itself comes back: a 2xx response (only the identity
success handler of `index.ts` line 11 runs), or a rejection carrying an
`AxiosError`.  In the rejected case `rid` identifies the promise returned by
the interceptor invocation on that error — the promise the line-45 `await`
adopts (the callback enqueued for it, were it ever drained, would settle that
await, not a caller promise). -/
inductive RefreshOutcome where
  | ok : RefreshOutcome
  | err (rid : Nat) (e : AxiosError) : RefreshOutcome
deriving Repr, DecidableEq

/-- The settlement of the refresh POST issued at line 45.  The POST goes
through the same `SquareAxios` instance, whose rejection handler is this very
interceptor (`index.ts` line 11), so a rejected refresh call re-enters
`responseErrorInterceptor` before the `await` can settle:

  * 2xx: the await resolves; the `try` body resumes (lines 47-50): flag
    cleared, waiters drained with true (each synchronously issuing its
    replay, FIFO), then the initiator replays.
  * rejected with a cancellation: lines 23-24 resolve the refresh promise
    with null, so the await RESOLVES and lines 47-50 run as on success.
  * rejected with a first-attempt 401 (the line-27 guard passes while
    `isRefreshing` is still true): the refresh error is marked `_retry` and
    enqueued as a waiter (lines 30-39); the interceptor returns a pending
    promise, the line-45 await never settles, and the continuation
    (lines 47-59) never runs — the episode deadlocks.
  * rejected with anything else: line 63 re-rejects the refresh error, the
    await rejects, and the `catch` block runs (lines 51-59): flag cleared,
    waiters drained with false, one redirect when `window` exists, and the
    initiator rejects with the refresh error.

If no refresh is in flight the event has no effect. -/
def stepSettle (s : InterceptorState) (ro : RefreshOutcome) : InterceptorState :=
  match s.inFlight with
  | none => s
  | some w =>
    match ro with
    | RefreshOutcome.ok =>
      -- line 47: isRefreshing = false
      -- line 48: onRefreshed(true) — each callback issues its replay and
      --   resolves its caller, in FIFO order; then the list is cleared
      -- line 50: return SquareAxios(originalRequest) — the initiator replays
      { s with isRefreshing := false
               inFlight := none
               refreshSubscribers := []
               replays := s.replays ++ s.refreshSubscribers.map Waiter.rid ++ [w.rid]
               settled := s.settled ++ s.refreshSubscribers.map (runWaiter true)
                            ++ [(w.rid, Settle.replay w.cfg)] }
    | RefreshOutcome.err rid e =>
      if e.cancelled then
        -- lines 23-24 on the refresh error: resolved with null, so the
        -- line-45 await resolves and lines 47-50 run
        { s with isRefreshing := false
                 inFlight := none
                 refreshSubscribers := []
                 replays := s.replays ++ s.refreshSubscribers.map Waiter.rid ++ [w.rid]
                 settled := s.settled ++ [(rid, Settle.nullResult)]
                              ++ s.refreshSubscribers.map (runWaiter true)
                              ++ [(w.rid, Settle.replay w.cfg)] }
      else
        match e.config with
        | none =>
          -- line 63 on the refresh error → await rejects → catch block
          { s with isRefreshing := false
                   inFlight := none
                   refreshSubscribers := []
                   redirects := s.redirects + (if s.hasWindow then 1 else 0)
                   settled := s.settled ++ [(rid, Settle.rejectOriginal e)]
                                ++ s.refreshSubscribers.map (runWaiter false)
                                ++ [(w.rid, Settle.rejectRefresh e)] }
        | some cfg =>
          if e.status = some 401 ∧ cfg.retry = false then
            -- lines 28-39 on the refresh error while isRefreshing is true:
            -- enqueued as a waiter; the await never settles — deadlock
            { s with refreshSubscribers :=
                       s.refreshSubscribers ++ [⟨rid, markRetried cfg, e⟩] }
          else
            -- line 63 on the refresh error → await rejects → catch block:
            -- line 52: isRefreshing = false
            -- line 53: onRefreshed(false) — waiters reject with their errors
            -- lines 55-57: redirect to /signin when window is defined
            -- line 59: return Promise.reject(refreshError)
            { s with isRefreshing := false
                     inFlight := none
                     refreshSubscribers := []
                     redirects := s.redirects + (if s.hasWindow then 1 else 0)
                     settled := s.settled ++ [(rid, Settle.rejectOriginal e)]
                                  ++ s.refreshSubscribers.map (runWaiter false)
                                  ++ [(w.rid, Settle.rejectRefresh e)] }

/-- A scheduler event: a rejected response reaching the interceptor, or the
in-flight refresh POST settling. -/
inductive Event where
  | arrive (rid : Nat) (e : AxiosError) : Event
  | settle (ro : RefreshOutcome) : Event
deriving Repr, DecidableEq

/-- One scheduler step. -/
def step (s : InterceptorState) : Event → InterceptorState
  | Event.arrive rid e => stepArrive s rid e
  | Event.settle ro => stepSettle s ro

/-- Run a sequence of events. -/
def runEvents (s : InterceptorState) (evs : List Event) : InterceptorState :=
  evs.foldl step s

/-- `Event.arrive` events for a batch of failing requests. -/
def arrivals (reqs : List (Nat × AxiosError)) : List Event :=
  reqs.map (fun p => Event.arrive p.1 p.2)

/-- The line-27 guard: a non-cancelled 401 carrying a descriptor not yet
marked `_retry` (a first-attempt 401). -/
def first401 (e : AxiosError) : Bool :=
  !e.cancelled && e.status == some 401 &&
    (match e.config with
     | some cfg => !cfg.retry
     | none => false)

/-- The waiter data an arrival `(rid, e)` turns into, given `first401 e`. -/
def mkWaiter (p : Nat × AxiosError) : Waiter :=
  ⟨p.1, markRetried ((p.2).config.getD ⟨0, false⟩), p.2⟩

/-! ## Basic facts about the embedding -/

@[simp]
theorem mkWaiter_rid (p : Nat × AxiosError) : (mkWaiter p).rid = p.1 := rfl

@[simp]
theorem mkWaiter_err (p : Nat × AxiosError) : (mkWaiter p).err = p.2 := rfl

@[simp]
theorem runWaiter_true (w : Waiter) : runWaiter true w = (w.rid, Settle.replay w.cfg) := rfl

@[simp]
theorem runWaiter_false (w : Waiter) : runWaiter false w = (w.rid, Settle.rejectOriginal w.err) := rfl

/-- Unpacking the line-27 guard. -/
theorem first401_spec (e : AxiosError) (he : first401 e = true) :
    e.cancelled = false ∧ e.status = some 401 ∧
      ∃ cfg, e.config = some cfg ∧ cfg.retry = false := by
  obtain ⟨config, status, cancelled⟩ := e
  cases config with
  | none => simp [first401] at he
  | some cfg =>
    simp [first401] at he
    exact ⟨he.1.1, he.1.2, cfg, rfl, he.2⟩

/-- A first-attempt 401 arriving while a refresh is in flight only enqueues
a waiter (lines 30-39). -/
theorem stepArrive_refreshing (s : InterceptorState) (rid : Nat) (e : AxiosError)
    (hs : s.isRefreshing = true) (he : first401 e = true) :
    stepArrive s rid e =
      { s with refreshSubscribers := s.refreshSubscribers ++ [mkWaiter (rid, e)] } := by
  obtain ⟨hc, hst, cfg, hcfg, hret⟩ := first401_spec e he
  simp [stepArrive, hc, hcfg, hst, hret, hs, mkWaiter, markRetried]

/-- A first-attempt 401 arriving while idle starts the (single) refresh
call (lines 42-45). -/
theorem stepArrive_idle (s : InterceptorState) (rid : Nat) (e : AxiosError)
    (hs : s.isRefreshing = false) (he : first401 e = true) :
    stepArrive s rid e =
      { s with isRefreshing := true
               inFlight := some (mkWaiter (rid, e))
               refreshCalls := s.refreshCalls + 1 } := by
  obtain ⟨hc, hst, cfg, hcfg, hret⟩ := first401_spec e he
  simp [stepArrive, hc, hcfg, hst, hret, hs, mkWaiter, markRetried]

theorem runEvents_cons (s : InterceptorState) (ev : Event) (evs : List Event) :
    runEvents s (ev :: evs) = runEvents (step s ev) evs := rfl

theorem runEvents_append_settle (s : InterceptorState) (evs : List Event) (ro : RefreshOutcome) :
    runEvents s (evs ++ [Event.settle ro]) = stepSettle (runEvents s evs) ro := by
  simp [runEvents, List.foldl_append]
  rfl

/-- A batch of first-attempt 401s arriving while a refresh is in flight
appends the corresponding waiters in FIFO order and changes nothing else. -/
theorem runArrivals_refreshing (reqs : List (Nat × AxiosError)) (s : InterceptorState)
    (hs : s.isRefreshing = true) (h : ∀ p ∈ reqs, first401 p.2 = true) :
    runEvents s (arrivals reqs) =
      { s with refreshSubscribers := s.refreshSubscribers ++ reqs.map mkWaiter } := by
  induction reqs generalizing s with
  | nil => simp [runEvents, arrivals]
  | cons p ps ih =>
    have h1 := stepArrive_refreshing s p.1 p.2 hs (h p (List.mem_cons_self p ps))
    have h2 : runEvents s (arrivals (p :: ps)) =
        runEvents (stepArrive s p.1 p.2) (arrivals ps) := rfl
    rw [h2, h1, ih { s with refreshSubscribers := s.refreshSubscribers ++ [mkWaiter (p.1, p.2)] }
      hs (fun q hq => h q (List.mem_cons_of_mem p hq))]
    simp

/-- The state after N >= 1 simultaneous first-attempt 401s: one refresh call
in flight for the first arrival, the rest queued as waiters in FIFO order. -/
theorem runEvents_episode_start (hw : Bool) (r : Nat × AxiosError)
    (rs : List (Nat × AxiosError)) (h : ∀ p ∈ r :: rs, first401 p.2 = true) :
    runEvents (initState hw) (arrivals (r :: rs)) =
      { initState hw with
          isRefreshing := true
          inFlight := some (mkWaiter r)
          refreshCalls := 1
          refreshSubscribers := rs.map mkWaiter } := by
  have h2 : runEvents (initState hw) (arrivals (r :: rs)) =
      runEvents (stepArrive (initState hw) r.1 r.2) (arrivals rs) := rfl
  rw [h2, stepArrive_idle _ _ _ rfl (h r (List.mem_cons_self r rs)),
    runArrivals_refreshing _ _ rfl (fun q hq => h q (List.mem_cons_of_mem r hq))]
  simp [initState]

/-- One full expiry episode whose refresh call succeeds: the batch of
first-attempt 401s, then the refresh POST settling with 2xx. -/
def successEpisode (hw : Bool) (reqs : List (Nat × AxiosError)) : InterceptorState :=
  runEvents (initState hw) (arrivals reqs ++ [Event.settle RefreshOutcome.ok])

/-- One full expiry episode whose refresh call fails: the batch of
first-attempt 401s, then the refresh POST rejecting with error `e` (where
`rid` identifies the promise the interceptor returns for that error). -/
def failureEpisode (hw : Bool) (reqs : List (Nat × AxiosError))
    (rid : Nat) (e : AxiosError) : InterceptorState :=
  runEvents (initState hw) (arrivals reqs ++ [Event.settle (RefreshOutcome.err rid e)])

theorem successEpisode_eq (hw : Bool) (r : Nat × AxiosError)
    (rs : List (Nat × AxiosError)) (h : ∀ p ∈ r :: rs, first401 p.2 = true) :
    successEpisode hw (r :: rs) =
      { initState hw with
          refreshCalls := 1
          replays := rs.map Prod.fst ++ [r.1]
          settled := rs.map (fun p => (p.1, Settle.replay (mkWaiter p).cfg))
                       ++ [(r.1, Settle.replay (mkWaiter r).cfg)] } := by
  rw [successEpisode, runEvents_append_settle, runEvents_episode_start hw r rs h]
  simp [stepSettle, List.map_map, Function.comp, initState, mkWaiter]

/-- A failing episode whose refresh error the interceptor REJECTS (any
non-cancelled failure other than a first-attempt 401): the catch block runs —
refresh promise rejected with its own error, waiters rejected FIFO with their
original errors, one redirect in a browsing context, initiator rejected with
the refresh error, and no replay issued. -/
theorem failureEpisode_rejected_eq (hw : Bool) (r : Nat × AxiosError)
    (rs : List (Nat × AxiosError)) (rid : Nat) (e : AxiosError)
    (h : ∀ p ∈ r :: rs, first401 p.2 = true)
    (hcl : e.cancelled = false) (hne : first401 e = false) :
    failureEpisode hw (r :: rs) rid e =
      { initState hw with
          refreshCalls := 1
          redirects := if hw then 1 else 0
          settled := (rid, Settle.rejectOriginal e)
                       :: (rs.map (fun p => (p.1, Settle.rejectOriginal p.2))
                            ++ [(r.1, Settle.rejectRefresh e)]) } := by
  rw [failureEpisode, runEvents_append_settle, runEvents_episode_start hw r rs h]
  rcases hcfg : e.config with _ | cfg
  · simp [stepSettle, hcl, hcfg, List.map_map, Function.comp, initState, mkWaiter]
  · have hc : ¬ (e.status = some 401 ∧ cfg.retry = false) := by
      rintro ⟨h1, h2⟩
      simp [first401, hcl, hcfg, h1, h2] at hne
    simp [stepSettle, hcl, hcfg, hc, List.map_map, Function.comp, initState, mkWaiter]

/-- A failing episode whose refresh error is itself a first-attempt 401: the
refresh error is enqueued as one more waiter, the await never settles, and
nothing else happens — no settlement, no drain, no redirect, flag stuck. -/
theorem failureEpisode_deadlock_eq (hw : Bool) (r : Nat × AxiosError)
    (rs : List (Nat × AxiosError)) (rid : Nat) (e : AxiosError)
    (h : ∀ p ∈ r :: rs, first401 p.2 = true) (he : first401 e = true) :
    failureEpisode hw (r :: rs) rid e =
      { initState hw with
          isRefreshing := true
          inFlight := some (mkWaiter r)
          refreshCalls := 1
          refreshSubscribers := rs.map mkWaiter ++ [mkWaiter (rid, e)] } := by
  obtain ⟨hcl, hst, cfg, hcfg, hret⟩ := first401_spec e he
  rw [failureEpisode, runEvents_append_settle, runEvents_episode_start hw r rs h]
  simp [stepSettle, hcl, hcfg, hst, hret, mkWaiter, markRetried]

/-! ## Concrete sample inputs -/

/-- A first-attempt 401 error whose descriptor has payload `u`. -/
def sample401 (u : Nat) : AxiosError :=
  ⟨some ⟨u, false⟩, some 401, false⟩

/-- A 401 error whose descriptor already carries the `_retry` marker. -/
def sampleRetried : AxiosError :=
  ⟨some ⟨5, true⟩, some 401, false⟩

/-! ## The claims -/

/-- C1: for any batch of N >= 1 concurrent first-attempt 401 failures, exactly
one refresh POST is issued.  The first failure observed while idle raises
`isRefreshing` and becomes the in-flight refresh initiator; every later 401 of
the batch is enqueued in `refreshSubscribers` as a waiter and the refresh-call
count stays at one. -/
theorem c1_single_refresh_invariant (hw : Bool) (r : Nat × AxiosError)
    (rs : List (Nat × AxiosError)) (h : ∀ p ∈ r :: rs, first401 p.2 = true) :
    (runEvents (initState hw) (arrivals (r :: rs))).refreshCalls = 1 ∧
    (runEvents (initState hw) (arrivals (r :: rs))).isRefreshing = true ∧
    (runEvents (initState hw) (arrivals (r :: rs))).inFlight = some (mkWaiter r) ∧
    (runEvents (initState hw) (arrivals (r :: rs))).refreshSubscribers = rs.map mkWaiter := by
  rw [runEvents_episode_start hw r rs h]
  exact ⟨rfl, rfl, rfl, rfl⟩

theorem c1_witness :
    (∀ p ∈ [(1, sample401 10), (2, sample401 20)], first401 p.2 = true) ∧
    ((runEvents (initState true) (arrivals [(1, sample401 10), (2, sample401 20)])).refreshCalls = 1 ∧
     (runEvents (initState true) (arrivals [(1, sample401 10), (2, sample401 20)])).isRefreshing = true ∧
     (runEvents (initState true) (arrivals [(1, sample401 10), (2, sample401 20)])).inFlight
        = some (mkWaiter (1, sample401 10)) ∧
     (runEvents (initState true) (arrivals [(1, sample401 10), (2, sample401 20)])).refreshSubscribers
        = [(2, sample401 20)].map mkWaiter) :=
  ⟨by decide, c1_single_refresh_invariant true (1, sample401 10) [(2, sample401 20)] (by decide)⟩

/-- C2: when the single refresh succeeds, each of the N requests is replayed
exactly once (its descriptor, `_retry` set, re-issued through the client), each
promise settles with the outcome of its replay, and no promise settles with an
original 401 error. -/
theorem c2_replay_correctness (hw : Bool) (r : Nat × AxiosError)
    (rs : List (Nat × AxiosError)) (h401 : ∀ p ∈ r :: rs, first401 p.2 = true)
    (hnd : ((r :: rs).map Prod.fst).Nodup) :
    (∀ p ∈ r :: rs, (successEpisode hw (r :: rs)).replays.count p.1 = 1) ∧
    (successEpisode hw (r :: rs)).settled =
      rs.map (fun p => (p.1, Settle.replay (mkWaiter p).cfg))
        ++ [(r.1, Settle.replay (mkWaiter r).cfg)] ∧
    (∀ q e, (q, Settle.rejectOriginal e) ∉ (successEpisode hw (r :: rs)).settled) := by
  have he := successEpisode_eq hw r rs h401
  have hrep : (successEpisode hw (r :: rs)).replays = rs.map Prod.fst ++ [r.1] := by rw [he]
  have hset : (successEpisode hw (r :: rs)).settled =
      rs.map (fun p => (p.1, Settle.replay (mkWaiter p).cfg))
        ++ [(r.1, Settle.replay (mkWaiter r).cfg)] := by rw [he]
  refine ⟨?_, hset, ?_⟩
  · intro p hp
    rw [hrep]
    have hperm : (rs.map Prod.fst ++ [r.1]).Perm ((r :: rs).map Prod.fst) := by
      simp
    rw [hperm.count_eq]
    exact List.count_eq_one_of_mem hnd (List.mem_map_of_mem Prod.fst hp)
  · intro q e hmem
    rw [hset] at hmem
    simp [List.mem_append, List.mem_map, Prod.ext_iff] at hmem

theorem c2_witness :
    (∀ p ∈ [(1, sample401 10), (2, sample401 20)], first401 p.2 = true) ∧
    (([(1, sample401 10), (2, sample401 20)].map Prod.fst).Nodup) ∧
    ((∀ p ∈ [(1, sample401 10), (2, sample401 20)],
        (successEpisode true [(1, sample401 10), (2, sample401 20)]).replays.count p.1 = 1) ∧
     (successEpisode true [(1, sample401 10), (2, sample401 20)]).settled =
       [(2, sample401 20)].map (fun p => (p.1, Settle.replay (mkWaiter p).cfg))
         ++ [(1, Settle.replay (mkWaiter (1, sample401 10)).cfg)] ∧
     (∀ q e, (q, Settle.rejectOriginal e) ∉
        (successEpisode true [(1, sample401 10), (2, sample401 20)]).settled)) :=
  ⟨by decide, by decide,
    c2_replay_correctness true (1, sample401 10) [(2, sample401 20)] (by decide) (by decide)⟩

/-- C3 counterexample: two concurrent first-attempt 401s (request 1 initiates
the refresh, request 2 waits) and the refresh POST fails with a 401 of its
own.  The refresh error re-enters the interceptor, passes the line-27 guard
while `isRefreshing` is still true, and is enqueued as a third waiter: the
line-45 await never settles, so NO promise is rejected — the settlement log
is empty, refuting the claim that every one of the N promises rejects. -/
theorem c3_counterexample :
    (failureEpisode true [(1, sample401 10), (2, sample401 20)] 3 (sample401 99)).settled
       = [] ∧
    (failureEpisode true [(1, sample401 10), (2, sample401 20)] 3 (sample401 99)).isRefreshing
       = true ∧
    (failureEpisode true [(1, sample401 10), (2, sample401 20)] 3 (sample401 99)).refreshSubscribers
       = [mkWaiter (2, sample401 20), mkWaiter (3, sample401 99)] := by
  decide

/-- C3 (amended): if the refresh call fails and its error is rejected by the
interceptor — any non-cancelled failure that is not a first-attempt 401 (a
non-401 status, or a 401 with the `_retry` marker or no descriptor) — then
every one of the N promises is rejected: each waiter with its original
triggering error, the initiator with the refresh error (and the refresh call
promise itself with that same error), and no replay request is issued.  A
refresh failure that is itself a first-attempt 401 instead deadlocks the
episode with no settlement at all (see the counterexample). -/
theorem c3_fanout_on_rejected_refresh_failure (hw : Bool) (r : Nat × AxiosError)
    (rs : List (Nat × AxiosError)) (rid : Nat) (e : AxiosError)
    (h401 : ∀ p ∈ r :: rs, first401 p.2 = true)
    (hcl : e.cancelled = false) (hne : first401 e = false) :
    (failureEpisode hw (r :: rs) rid e).settled =
      (rid, Settle.rejectOriginal e)
        :: (rs.map (fun p => (p.1, Settle.rejectOriginal p.2))
             ++ [(r.1, Settle.rejectRefresh e)]) ∧
    (failureEpisode hw (r :: rs) rid e).replays = [] ∧
    (∀ p ∈ rs, (p.1, Settle.rejectOriginal p.2) ∈ (failureEpisode hw (r :: rs) rid e).settled) ∧
    (r.1, Settle.rejectRefresh e) ∈ (failureEpisode hw (r :: rs) rid e).settled := by
  have he := failureEpisode_rejected_eq hw r rs rid e h401 hcl hne
  have hset : (failureEpisode hw (r :: rs) rid e).settled =
      (rid, Settle.rejectOriginal e)
        :: (rs.map (fun p => (p.1, Settle.rejectOriginal p.2))
             ++ [(r.1, Settle.rejectRefresh e)]) := by
    rw [he]
  have hrep : (failureEpisode hw (r :: rs) rid e).replays = [] := by rw [he]; rfl
  refine ⟨hset, hrep, ?_, ?_⟩
  · intro p hp
    rw [hset]
    exact List.mem_cons_of_mem _ (List.mem_append_left _ (List.mem_map_of_mem _ hp))
  · rw [hset]
    exact List.mem_cons_of_mem _ (List.mem_append_right _ (List.mem_cons_self _ _))

theorem c3_witness :
    (∀ p ∈ [(1, sample401 10), (2, sample401 20)], first401 p.2 = true) ∧
    (AxiosError.cancelled ⟨some ⟨7, false⟩, some 500, false⟩ = false ∧
     first401 ⟨some ⟨7, false⟩, some 500, false⟩ = false) ∧
    ((failureEpisode true [(1, sample401 10), (2, sample401 20)] 3
        ⟨some ⟨7, false⟩, some 500, false⟩).settled =
       (3, Settle.rejectOriginal ⟨some ⟨7, false⟩, some 500, false⟩)
         :: ([(2, sample401 20)].map (fun p => (p.1, Settle.rejectOriginal p.2))
              ++ [(1, Settle.rejectRefresh ⟨some ⟨7, false⟩, some 500, false⟩)]) ∧
     (failureEpisode true [(1, sample401 10), (2, sample401 20)] 3
        ⟨some ⟨7, false⟩, some 500, false⟩).replays = [] ∧
     (∀ p ∈ [(2, sample401 20)], (p.1, Settle.rejectOriginal p.2) ∈
        (failureEpisode true [(1, sample401 10), (2, sample401 20)] 3
          ⟨some ⟨7, false⟩, some 500, false⟩).settled) ∧
     (1, Settle.rejectRefresh ⟨some ⟨7, false⟩, some 500, false⟩) ∈
        (failureEpisode true [(1, sample401 10), (2, sample401 20)] 3
          ⟨some ⟨7, false⟩, some 500, false⟩).settled) :=
  ⟨by decide, by decide,
    c3_fanout_on_rejected_refresh_failure true (1, sample401 10) [(2, sample401 20)] 3
      ⟨some ⟨7, false⟩, some 500, false⟩ (by decide) rfl (by decide)⟩

/-- C4: at most one retry per request.  A non-cancelled 401 whose descriptor
already carries the `_retry` marker is rejected with that error unchanged; the
state is otherwise untouched, so no further retry and no refresh call occur. -/
theorem c4_one_shot_retry (s : InterceptorState) (rid : Nat) (e : AxiosError)
    (cfg : RequestConfig) (hcl : e.cancelled = false) (hcfg : e.config = some cfg)
    (hret : cfg.retry = true) (_hst : e.status = some 401) :
    stepArrive s rid e = { s with settled := s.settled ++ [(rid, Settle.rejectOriginal e)] } := by
  simp [stepArrive, hcl, hcfg, hret]

theorem c4_witness :
    (sampleRetried.cancelled = false ∧ sampleRetried.config = some ⟨5, true⟩ ∧
     RequestConfig.retry ⟨5, true⟩ = true ∧ sampleRetried.status = some 401) ∧
    stepArrive (initState true) 7 sampleRetried =
      { initState true with
          settled := (initState true).settled ++ [(7, Settle.rejectOriginal sampleRetried)] } :=
  ⟨by decide, c4_one_shot_retry (initState true) 7 sampleRetried ⟨5, true⟩ rfl rfl rfl rfl⟩

/-- C5 counterexample: in a two-request episode (request 1 initiates the
refresh, request 2 is enqueued as a waiter) the replays after a successful
refresh are issued waiter-first — `[2, 1]`, not trigger-first `[1, 2]` as the
claim states: `onRefreshed(true)` runs before `return SquareAxios(originalRequest)`. -/
theorem c5_counterexample :
    (successEpisode true [(1, sample401 10), (2, sample401 20)]).replays = [2, 1] ∧
    ¬ (successEpisode true [(1, sample401 10), (2, sample401 20)]).replays = [1, 2] := by
  decide

/-- C5 (amended): when a successful refresh settles, replays are issued in the
order: the queued waiters first, drained in FIFO order relative to when they
were enqueued, then the triggering request last. -/
theorem c5_amended_replay_order (hw : Bool) (r : Nat × AxiosError)
    (rs : List (Nat × AxiosError)) (h401 : ∀ p ∈ r :: rs, first401 p.2 = true) :
    (successEpisode hw (r :: rs)).replays = rs.map Prod.fst ++ [r.1] := by
  rw [successEpisode_eq hw r rs h401]

theorem c5_witness :
    (∀ p ∈ [(3, sample401 30), (4, sample401 40), (5, sample401 50)], first401 p.2 = true) ∧
    (successEpisode true [(3, sample401 30), (4, sample401 40), (5, sample401 50)]).replays =
      [(4, sample401 40), (5, sample401 50)].map Prod.fst ++ [3] :=
  ⟨by decide,
    c5_amended_replay_order true (3, sample401 30)
      [(4, sample401 40), (5, sample401 50)] (by decide)⟩

/-- C6: a cancelled request resolves with the null result, whatever the shared
refresh state: nothing but a `nullResult` settlement is recorded — no waiter is
enqueued, no refresh is started, no marker is set, and nothing is rejected. -/
theorem c6_cancellation_transparency (s : InterceptorState) (rid : Nat) (e : AxiosError)
    (hcl : e.cancelled = true) :
    stepArrive s rid e = { s with settled := s.settled ++ [(rid, Settle.nullResult)] } := by
  simp [stepArrive, hcl]

theorem c6_witness :
    (AxiosError.cancelled ⟨some ⟨9, false⟩, some 401, true⟩ = true) ∧
    stepArrive { initState true with isRefreshing := true } 8 ⟨some ⟨9, false⟩, some 401, true⟩ =
      { { initState true with isRefreshing := true } with
          settled := { initState true with isRefreshing := true }.settled
                       ++ [(8, Settle.nullResult)] } :=
  ⟨rfl, c6_cancellation_transparency { initState true with isRefreshing := true } 8
    ⟨some ⟨9, false⟩, some 401, true⟩ rfl⟩

/-- Arrivals never touch the redirect counter: navigation can only happen in
the refresh-failure continuation. -/
theorem stepArrive_redirects (s : InterceptorState) (rid : Nat) (e : AxiosError) :
    (stepArrive s rid e).redirects = s.redirects := by
  obtain ⟨c, st, cl⟩ := e
  cases cl with
  | true => rfl
  | false =>
    cases c with
    | none => rfl
    | some cfg =>
      by_cases hg : st = some 401 ∧ cfg.retry = false
      · by_cases hr : s.isRefreshing = true <;> simp [stepArrive, hg, hr]
      · simp [stepArrive, hg]

/-- C7 counterexample: a one-request expiry episode whose refresh POST fails
with a 401.  The refresh error is enqueued as a waiter instead of reaching the
catch block (lines 51-59), so zero navigations to the sign-in route occur —
refuting "exactly one navigation per failing episode". -/
theorem c7_counterexample :
    (failureEpisode true [(1, sample401 10)] 2 (sample401 88)).redirects = 0 ∧
    ¬ (failureEpisode true [(1, sample401 10)] 2 (sample401 88)).redirects = 1 := by
  decide

/-- C7 (amended): in a browsing context, an expiry episode whose refresh
failure is rejected by the interceptor (non-cancelled and not a first-attempt
401) performs exactly one navigation to the sign-in route whatever the batch
size N; a successful episode performs none; an episode whose refresh failure
is itself a first-attempt 401 deadlocks and performs none; and no arrival
path ever navigates. -/
theorem c7_redirect_on_rejected_refresh_failure (r : Nat × AxiosError)
    (rs : List (Nat × AxiosError)) (rid : Nat) (e : AxiosError)
    (h401 : ∀ p ∈ r :: rs, first401 p.2 = true)
    (hcl : e.cancelled = false) (hne : first401 e = false) :
    (failureEpisode true (r :: rs) rid e).redirects = 1 ∧
    (successEpisode true (r :: rs)).redirects = 0 ∧
    (∀ q e2, first401 e2 = true → (failureEpisode true (r :: rs) q e2).redirects = 0) ∧
    (∀ s q e2, (stepArrive s q e2).redirects = s.redirects) := by
  refine ⟨?_, ?_, ?_, stepArrive_redirects⟩
  · rw [failureEpisode_rejected_eq true r rs rid e h401 hcl hne]; rfl
  · rw [successEpisode_eq true r rs h401]; rfl
  · intro q e2 he2
    rw [failureEpisode_deadlock_eq true r rs q e2 h401 he2]; rfl

theorem c7_witness :
    (∀ p ∈ [(1, sample401 10), (2, sample401 20), (6, sample401 60)], first401 p.2 = true) ∧
    (AxiosError.cancelled ⟨some ⟨7, false⟩, some 503, false⟩ = false ∧
     first401 ⟨some ⟨7, false⟩, some 503, false⟩ = false) ∧
    ((failureEpisode true [(1, sample401 10), (2, sample401 20), (6, sample401 60)] 9
        ⟨some ⟨7, false⟩, some 503, false⟩).redirects = 1 ∧
     (successEpisode true [(1, sample401 10), (2, sample401 20), (6, sample401 60)]).redirects = 0 ∧
     (∀ q e2, first401 e2 = true →
        (failureEpisode true [(1, sample401 10), (2, sample401 20), (6, sample401 60)] q e2).redirects
          = 0) ∧
     (∀ s q e2, (stepArrive s q e2).redirects = s.redirects)) :=
  ⟨by decide, by decide,
    c7_redirect_on_rejected_refresh_failure (1, sample401 10)
      [(2, sample401 20), (6, sample401 60)] 9 ⟨some ⟨7, false⟩, some 503, false⟩
      (by decide) rfl (by decide)⟩

/-- C8: any non-cancelled failure that is not a first-attempt 401 — a non-401
error, a 401 with the `_retry` marker set, or a 401 with no descriptor — is
rejected with the original error object unchanged, and the state is otherwise
untouched: no retry, no refresh, no modification of the error. -/
theorem c8_passthrough_unchanged (s : InterceptorState) (rid : Nat) (e : AxiosError)
    (hcl : e.cancelled = false) (hne : first401 e = false) :
    stepArrive s rid e = { s with settled := s.settled ++ [(rid, Settle.rejectOriginal e)] } := by
  rcases hcfg : e.config with _ | cfg
  · simp [stepArrive, hcl, hcfg]
  · have hc : ¬ (e.status = some 401 ∧ cfg.retry = false) := by
      rintro ⟨h1, h2⟩
      simp [first401, hcl, hcfg, h1, h2] at hne
    simp [stepArrive, hcl, hcfg, hc]

theorem c8_witness :
    (AxiosError.cancelled ⟨some ⟨3, false⟩, some 500, false⟩ = false ∧
     first401 ⟨some ⟨3, false⟩, some 500, false⟩ = false) ∧
    stepArrive (initState true) 11 ⟨some ⟨3, false⟩, some 500, false⟩ =
      { initState true with
          settled := (initState true).settled
                       ++ [(11, Settle.rejectOriginal ⟨some ⟨3, false⟩, some 500, false⟩)] } :=
  ⟨by decide, c8_passthrough_unchanged (initState true) 11
    ⟨some ⟨3, false⟩, some 500, false⟩ rfl (by decide)⟩

/-- One scheduler step preserves the link between the flag, the queue and the
in-flight initiator: while `isRefreshing` is down there is no waiter and no
suspended refresh continuation.  (The `inFlight` conjunct is what rules out a
settle event enqueuing a refresh-error waiter from an idle state.) -/
theorem step_stateInv (s : InterceptorState) (ev : Event)
    (h : s.isRefreshing = false → s.refreshSubscribers = [] ∧ s.inFlight = none) :
    (step s ev).isRefreshing = false →
      (step s ev).refreshSubscribers = [] ∧ (step s ev).inFlight = none := by
  cases ev with
  | settle ro =>
    show (stepSettle s ro).isRefreshing = false →
      (stepSettle s ro).refreshSubscribers = [] ∧ (stepSettle s ro).inFlight = none
    rcases hf : s.inFlight with _ | w
    · simpa [stepSettle, hf] using h
    · cases ro with
      | ok => simp [stepSettle, hf]
      | err rid e =>
        rcases hcl : e.cancelled with _ | _
        · rcases hcfg : e.config with _ | cfg
          · simp [stepSettle, hf, hcl, hcfg]
          · by_cases hg : e.status = some 401 ∧ cfg.retry = false
            · simp only [stepSettle, hf, hcl, hcfg, hg, if_true, if_false]
              intro hfalse
              obtain ⟨_, h2⟩ := h hfalse
              rw [hf] at h2
              cases h2
            · simp [stepSettle, hf, hcl, hcfg, hg]
        · simp [stepSettle, hf, hcl]
  | arrive rid e =>
    show (stepArrive s rid e).isRefreshing = false →
      (stepArrive s rid e).refreshSubscribers = [] ∧ (stepArrive s rid e).inFlight = none
    rcases hcl : e.cancelled with _ | _
    · rcases hcfg : e.config with _ | cfg
      · simpa [stepArrive, hcl, hcfg] using h
      · by_cases hg : e.status = some 401 ∧ cfg.retry = false
        · by_cases hr : s.isRefreshing = true
          · simp [stepArrive, hcl, hcfg, hg, hr]
          · simp [stepArrive, hcl, hcfg, hg, hr]
        · simpa [stepArrive, hcl, hcfg, hg] using h
    · simpa [stepArrive, hcl] using h

/-- The invariant holds along any run from a state that satisfies it. -/
theorem runEvents_stateInv (evs : List Event) (s : InterceptorState)
    (h : s.isRefreshing = false → s.refreshSubscribers = [] ∧ s.inFlight = none) :
    (runEvents s evs).isRefreshing = false →
      (runEvents s evs).refreshSubscribers = [] ∧ (runEvents s evs).inFlight = none := by
  induction evs generalizing s with
  | nil => exact h
  | cons ev evs ih => exact ih (step s ev) (step_stateInv s ev h)

/-- C9: in every state reachable from process start (i.e. observable at a
suspension point of the cooperative scheduler), if `isRefreshing` is false
then `refreshSubscribers` is empty: waiters exist only while a refresh is in
flight, and settling a refresh clears the flag and empties the queue in the
same atomic step. -/
theorem c9_waiters_only_while_refreshing (hw : Bool) (evs : List Event)
    (h : (runEvents (initState hw) evs).isRefreshing = false) :
    (runEvents (initState hw) evs).refreshSubscribers = [] :=
  (runEvents_stateInv evs (initState hw) (fun _ => ⟨rfl, rfl⟩) h).1

theorem c9_witness :
    ((runEvents (initState true)
        [Event.arrive 1 (sample401 10), Event.settle RefreshOutcome.ok]).isRefreshing
       = false) ∧
    (runEvents (initState true)
        [Event.arrive 1 (sample401 10), Event.settle RefreshOutcome.ok]).refreshSubscribers
       = [] :=
  ⟨by decide,
    c9_waiters_only_while_refreshing true
      [Event.arrive 1 (sample401 10), Event.settle RefreshOutcome.ok] (by decide)⟩

/-- C10: a non-cancelled 401 with no request descriptor (`error.config`
absent) never enters the refresh machinery: it is rejected with the original
error unchanged and the state is otherwise untouched — no waiter, no marker,
no refresh call. -/
theorem c10_missing_config (s : InterceptorState) (rid : Nat) (e : AxiosError)
    (hcl : e.cancelled = false) (hcfg : e.config = none) (_hst : e.status = some 401) :
    stepArrive s rid e = { s with settled := s.settled ++ [(rid, Settle.rejectOriginal e)] } := by
  simp [stepArrive, hcl, hcfg]

theorem c10_witness :
    (AxiosError.cancelled ⟨none, some 401, false⟩ = false ∧
     AxiosError.config ⟨none, some 401, false⟩ = none ∧
     AxiosError.status ⟨none, some 401, false⟩ = some 401) ∧
    stepArrive { initState true with isRefreshing := true } 12 ⟨none, some 401, false⟩ =
      { { initState true with isRefreshing := true } with
          settled := { initState true with isRefreshing := true }.settled
                       ++ [(12, Settle.rejectOriginal ⟨none, some 401, false⟩)] } :=
  ⟨by decide, c10_missing_config { initState true with isRefreshing := true } 12
    ⟨none, some 401, false⟩ rfl rfl rfl⟩
